import Mathlib

/-
Verification of the adaptive multi-pass PDF compression engine in
src/server.js (pdf-compressor-service).

The external ghostscript tool is a black box: within a single run its
behaviour is fully described by an oracle `Nat → Option Nat` giving, for each
0-based pass index, either `none` (non-zero exit or launch failure, the
`catch` branch of the loop) or `some n` (success, with an output file of `n`
bytes at the requested output path).  File artifacts in the working directory
are modelled symbolically: the original input file, and the renamed
"<uuid>-best.pdf" file created when pass `i` improves on the running best.
-/

/-- Symbolic reference to a file artifact used by the ladder loop:
the original input file (`inPath`), or the stable best file created by the
`rename(outPath, nextIn)` of the improving branch of pass `i`. -/
inductive Artifact where
  | original : Artifact
  | best : Nat → Artifact
deriving DecidableEq

/-- The fixed level ladder of `compressAdaptive`
(src/server.js line 188: `['baseline', 'aggr72', 'aggr50', 'ultra36']`). -/
def levels : List String := ["baseline", "aggr72", "aggr50", "ultra36"]

/-- The mutable state of the `compressAdaptive` loop (src/server.js lines
191-194): the current best artifact reference, its byte size, the label of
the level that produced it, the pass counter, together with the list of
temp files currently existing in the working directory (the original input
file is accounted separately and is never in `live`). -/
structure Core where
  bestPath : Artifact
  bestBytes : Nat
  bestLevel : String
  passUsed : Nat
  live : List Artifact
deriving DecidableEq

/-- Observation record for one iteration of the ladder loop: the pass index,
the level name, the artifact handed to ghostscript as input (line 202), the
tool outcome, the best size when the pass started and when it ended, the best
artifact when the pass ended, and whether the candidate strictly improved. -/
structure PassLog where
  idx : Nat
  level : String
  input : Artifact
  outcome : Option Nat
  bestBefore : Nat
  bestAfter : Nat
  bestPathAfter : Artifact
  improved : Bool
deriving DecidableEq

/-- One iteration of the `for` loop of `compressAdaptive` (src/server.js
lines 196-229), minus the early-stop check:
`passUsed = i + 1`; invoke ghostscript with `bestPath` as input; on failure
(`catch`) nothing else changes; on success with `outBytes < bestBytes` the
candidate becomes the best (it is renamed to a fresh best file `best i`,
which becomes a new live temp file; note the code never unlinks the previous
best file); otherwise the candidate's output file is unlinked again. -/
def stepPass (oracle : Nat → Option Nat) (i : Nat) (lvl : String) (c : Core) :
    Core × PassLog :=
  let c1 : Core := { c with passUsed := i + 1 }
  match oracle i with
  | none =>
      (c1,
       { idx := i, level := lvl, input := c1.bestPath, outcome := none,
         bestBefore := c1.bestBytes, bestAfter := c1.bestBytes,
         bestPathAfter := c1.bestPath, improved := false })
  | some outBytes =>
      if outBytes < c1.bestBytes then
        ({ c1 with bestBytes := outBytes, bestLevel := lvl,
                   bestPath := Artifact.best i,
                   live := c1.live ++ [Artifact.best i] },
         { idx := i, level := lvl, input := c1.bestPath,
           outcome := some outBytes, bestBefore := c1.bestBytes,
           bestAfter := outBytes, bestPathAfter := Artifact.best i,
           improved := true })
      else
        (c1,
         { idx := i, level := lvl, input := c1.bestPath,
           outcome := some outBytes, bestBefore := c1.bestBytes,
           bestAfter := c1.bestBytes, bestPathAfter := c1.bestPath,
           improved := false })

/-- The ladder loop of `compressAdaptive` (src/server.js lines 196-230).
After each iteration the loop breaks when `bestBytes <= TARGET_MAX_BYTES`;
that check sits inside the `try` block, so it only runs when the tool
invocation succeeded (on failure control jumps to `catch` and the loop simply
continues).  Returns the final loop state together with the per-iteration
log. -/
def runLadder (oracle : Nat → Option Nat) (target : Nat) :
    List String → Nat → Core → Core × List PassLog
  | [], _, c => (c, [])
  | lvl :: rest, i, c =>
      let s := stepPass oracle i lvl c
      if s.2.outcome.isSome ∧ s.1.bestBytes ≤ target then (s.1, [s.2])
      else
        let r := runLadder oracle target rest (i + 1) s.1
        (r.1, s.2 :: r.2)

/-- Initial loop state of `compressAdaptive` (src/server.js lines 191-194):
best is the unmodified input, labelled with the sentinel level. -/
def initCore (originalBytes : Nat) : Core :=
  { bestPath := Artifact.original, bestBytes := originalBytes,
    bestLevel := "original", passUsed := 0, live := [] }

/-- The adaptive driver `compressAdaptive` (src/server.js lines 187-233),
abstracted over the tool oracle and the `TARGET_MAX_BYTES` configuration. -/
def compressAdaptive (oracle : Nat → Option Nat) (target originalBytes : Nat) :
    Core × List PassLog :=
  runLadder oracle target levels 0 (initCore originalBytes)

/-- Bearer token extraction of `handleCompress` (src/server.js lines
241-242): `auth.startsWith('Bearer ') ? auth.slice(7) : ''`.  The
`startsWith('Bearer ')` test is rendered as equality of the first 7
characters with the 7-character prefix. -/
def extractToken (auth : String) : String :=
  if auth.take 7 = ("Bearer ") then auth.drop 7 else ""

/-- The request-body fields read by `handleCompress` (src/server.js lines
248-249).  A field is `none` when absent from the JSON object (JS
`undefined`). -/
structure Body where
  bucket : Option String
  name : Option String
  path : Option String
deriving DecidableEq

/-- JavaScript truthiness of an optional string value, as used by the
`if (!bucket || !objectName)` guard: absent values and the empty string are
falsy. -/
def truthy : Option String → Bool
  | none => false
  | some s => !s.isEmpty

/-- Outcome of the Supabase storage download collaborator
(src/server.js lines 259-264): on success all later logic depends only on the
byte length of the downloaded buffer. -/
inductive DownloadResult where
  | ok : Nat → DownloadResult
  | err : String → DownloadResult
deriving DecidableEq

/-- Outcome of the Supabase storage upload collaborator
(src/server.js lines 300-302). -/
inductive UploadResult where
  | ok : UploadResult
  | err : String → UploadResult
deriving DecidableEq

/-- The compression ratio serialized by `handleCompress`
(src/server.js line 313): `Number((bestBytes / originalBytes).toFixed(3))`,
i.e. the quotient rounded to 3 decimal places (ties rounded up, as in
`toFixed`), modelled over exact rationals. -/
def ratioTo3 (b o : Nat) : ℚ :=
  ((round ((b : ℚ) / (o : ℚ) * 1000) : ℤ) : ℚ) / 1000

/-- The observable result of one `/compress` request: the HTTP status, the
JSON fields of the response body that the claims mention (absent fields are
`none`), and whether the handler attempted the storage upload. -/
structure HandleResult where
  status : Nat
  ok : Bool
  errorMsg : Option String
  overwrote : Option Bool
  originalBytesOut : Option Nat
  compressedBytes : Option Nat
  ratioOut : Option ℚ
  quality : Option String
  passUsedOut : Option Nat
  hitTarget : Option Bool
  uploadAttempted : Bool
deriving DecidableEq

/-- The HTTP handler `handleCompress` (src/server.js lines 238-340),
abstracted over the configured secret, the request (Authorization header and
parsed body), the two storage collaborators, the tool oracle, and the
`GS_QUALITY` / `TARGET_MAX_BYTES` configuration:
401 when the secret is unset or the token mismatches (line 243);
400 when bucket or object name is missing/falsy (line 252);
500 when the download fails (line 262);
then the adaptive driver runs, and the result is uploaded back if and only if
`bestBytes < originalBytes` (lines 282-296); on upload error a 500 is
returned (line 308), otherwise the 200 response of lines 325-335. -/
def handleCompress (secret auth : String) (body : Option Body)
    (dl : DownloadResult) (oracle : Nat → Option Nat) (up : UploadResult)
    (gsQuality : String) (targetMaxBytes : Nat) : HandleResult :=
  if secret = "" ∨ extractToken auth ≠ secret then
    { status := 401, ok := false, errorMsg := some ("unauthorized"),
      overwrote := none, originalBytesOut := none, compressedBytes := none,
      ratioOut := none, quality := none, passUsedOut := none,
      hitTarget := none, uploadAttempted := false }
  else
    let bucket := body.bind Body.bucket
    let objectName := body.bind (fun b => Option.orElse b.name (fun _ => b.path))
    if ¬ truthy bucket ∨ ¬ truthy objectName then
      { status := 400, ok := false, errorMsg := some ("missing bucket or name"),
        overwrote := none, originalBytesOut := none, compressedBytes := none,
        ratioOut := none, quality := none, passUsedOut := none,
        hitTarget := none, uploadAttempted := false }
    else
      match dl with
      | DownloadResult.err _ =>
          { status := 500, ok := false, errorMsg := some ("download_failed"),
            overwrote := none, originalBytesOut := none, compressedBytes := none,
            ratioOut := none, quality := none, passUsedOut := none,
            hitTarget := none, uploadAttempted := false }
      | DownloadResult.ok originalBytes =>
          let r := compressAdaptive oracle targetMaxBytes originalBytes
          if r.1.bestBytes < originalBytes then
            match up with
            | UploadResult.err _ =>
                { status := 500, ok := false, errorMsg := some ("upload_failed"),
                  overwrote := none, originalBytesOut := none,
                  compressedBytes := none, ratioOut := none, quality := none,
                  passUsedOut := none, hitTarget := none,
                  uploadAttempted := true }
            | UploadResult.ok =>
                { status := 200, ok := true, errorMsg := none,
                  overwrote := some true,
                  originalBytesOut := some originalBytes,
                  compressedBytes := some r.1.bestBytes,
                  ratioOut := some (ratioTo3 r.1.bestBytes originalBytes),
                  quality := some (gsQuality ++ " + " ++ r.1.bestLevel),
                  passUsedOut := some r.1.passUsed,
                  hitTarget := some (decide (r.1.bestBytes ≤ targetMaxBytes)),
                  uploadAttempted := true }
          else
            { status := 200, ok := true, errorMsg := none,
              overwrote := some false,
              originalBytesOut := some originalBytes,
              compressedBytes := some originalBytes,
              ratioOut := some 1,
              quality := some (gsQuality ++ " (no improvement)"),
              passUsedOut := some 0,
              hitTarget := some (decide (originalBytes ≤ targetMaxBytes)),
              uploadAttempted := false }

/-- The request body reader `readJsonBody` (src/server.js lines 159-177).
The accumulated body is length-checked after each chunk (line 164): as soon
as it exceeds 3,000,000 characters the socket is destroyed (line 166), the
end event never fires and the promise never resolves — modelled as the outer
`none`; since the chunks partition the body, the accumulated length exceeds
the cutoff at some chunk boundary exactly when the total length does.
Otherwise the promise resolves (outer `some`): an empty body resolves to
`null`, and a `JSON.parse` exception is caught and resolves to `null`.  The
abstract `parse` argument stands for `JSON.parse` followed by the field
projection onto `Body`; `parse s = none` models a parse exception. -/
def readJsonBody (parse : String → Option Body) (data : String) :
    Option (Option Body) :=
  if data.length > 3000000 then none
  else some (if data = "" then none else parse data)

/-- The `POST /compress` route wiring (src/server.js lines 352-355): the raw
body is read with `readJsonBody` and handed to `handleCompress`; when the
body reader's promise never resolves, the handler never runs and no HTTP
response is sent at all (`none`). -/
def compressRoute (secret auth : String) (parse : String → Option Body)
    (data : String) (dl : DownloadResult) (oracle : Nat → Option Nat)
    (up : UploadResult) (gsQuality : String) (targetMaxBytes : Nat) :
    Option HandleResult :=
  match readJsonBody parse data with
  | none => none
  | some body =>
      some (handleCompress secret auth body dl oracle up gsQuality
        targetMaxBytes)

/-- A request body one character longer than the reader's 3,000,000-character
cutoff. -/
def hugeBody : String := String.mk (List.replicate 3000001 ('x'))

/-- The universal statement of claim C10 as written: every empty or
unparseable request body makes the body reader resolve (to null), and an
authorized /compress request carrying such a body is answered with
HTTP 400. -/
def invalidBodyClaim : Prop :=
  ∀ (parse : String → Option Body) (data : String),
    data = "" ∨ parse data = none →
    readJsonBody parse data = some none ∧
    ∀ (secret auth gsQuality : String) (dl : DownloadResult)
      (oracle : Nat → Option Nat) (up : UploadResult) (target : Nat),
      ¬ secret = "" → extractToken auth = secret →
      (compressRoute secret auth parse data dl oracle up gsQuality
          target).map HandleResult.status = some 400

/-- Concrete tool oracle where every ghostscript invocation fails. -/
def failOracle : Nat → Option Nat := fun _ => none

/-- Concrete tool oracle for the spec's early-stop scenario: the four levels
produce outputs of 1000, 400, 150 and 50 bytes. -/
def earlyStopOracle : Nat → Option Nat := fun i => [1000, 400, 150, 50].get? i

/-- Concrete tool oracle where the first pass fails and every later pass
succeeds with a 300-byte output. -/
def failThenSmallOracle : Nat → Option Nat :=
  fun i => if i = 0 then none else some 300

/-- Concrete tool oracle producing two strictly improving passes (900 then
800 bytes) followed by failures. -/
def twoImprovingOracle : Nat → Option Nat :=
  fun i => if i = 0 then some 900 else if i = 1 then some 800 else none

/-- Concrete tool oracle producing an improving 600-byte pass and then
passes that tie at 600 bytes. -/
def tieOracle : Nat → Option Nat := fun _ => some 600

/-- Concrete tool oracle for the spec's serialization scenario: the levels
produce outputs of 2,500,000, 900,000 and 500,000 bytes. -/
def scenarioOracle : Nat → Option Nat :=
  fun i => [2500000, 900000, 500000].get? i

/-- A concrete request body with both required fields present. -/
def sampleBody : Body :=
  { bucket := some ("docs"), name := some ("file.pdf"), path := none }

/-- The universal early-stop statement of the spec, as claimed: whenever the
tracked best size is at or below the target after some pass (0-based index
`j`), no later ladder level is invoked, i.e. the run performed exactly
`j + 1` tool invocations. -/
def earlyStopAfterEveryPass : Prop :=
  ∀ (oracle : Nat → Option Nat) (target orig j : Nat) (l : PassLog),
    ((compressAdaptive oracle target orig).2).get? j = some l →
    l.bestAfter ≤ target →
    ((compressAdaptive oracle target orig).2).length = j + 1

theorem stepPass_fst_bestBytes_le (oracle : Nat → Option Nat) (i : Nat)
    (lvl : String) (c : Core) :
    (stepPass oracle i lvl c).1.bestBytes ≤ c.bestBytes := by
  cases h : oracle i <;> simp [stepPass, h]
  split_ifs with hlt <;> simp [Nat.le_of_lt, hlt]

theorem stepPass_snd_bestAfter (oracle : Nat → Option Nat) (i : Nat)
    (lvl : String) (c : Core) :
    (stepPass oracle i lvl c).2.bestAfter = (stepPass oracle i lvl c).1.bestBytes := by
  cases h : oracle i <;> simp [stepPass, h]
  split_ifs <;> simp

theorem stepPass_snd_bestPathAfter (oracle : Nat → Option Nat) (i : Nat)
    (lvl : String) (c : Core) :
    (stepPass oracle i lvl c).2.bestPathAfter = (stepPass oracle i lvl c).1.bestPath := by
  cases h : oracle i <;> simp [stepPass, h]
  split_ifs <;> simp

theorem stepPass_snd_input (oracle : Nat → Option Nat) (i : Nat)
    (lvl : String) (c : Core) :
    (stepPass oracle i lvl c).2.input = c.bestPath := by
  cases h : oracle i <;> simp [stepPass, h]
  split_ifs <;> simp

theorem stepPass_snd_bestBefore (oracle : Nat → Option Nat) (i : Nat)
    (lvl : String) (c : Core) :
    (stepPass oracle i lvl c).2.bestBefore = c.bestBytes := by
  cases h : oracle i <;> simp [stepPass, h]
  split_ifs <;> simp

theorem stepPass_snd_idx (oracle : Nat → Option Nat) (i : Nat)
    (lvl : String) (c : Core) :
    (stepPass oracle i lvl c).2.idx = i := by
  cases h : oracle i <;> simp [stepPass, h]
  split_ifs <;> simp

theorem stepPass_fst_live (oracle : Nat → Option Nat) (i : Nat)
    (lvl : String) (c : Core) :
    (stepPass oracle i lvl c).1.live =
      c.live ++ (if (stepPass oracle i lvl c).2.improved then [Artifact.best i] else []) := by
  cases h : oracle i with
  | none => simp [stepPass, h]
  | some x =>
      by_cases hlt : x < c.bestBytes
      · simp [stepPass, h, hlt]
      · simp [stepPass, h, hlt]

theorem stepPass_rejected (oracle : Nat → Option Nat) (i : Nat)
    (lvl : String) (c : Core) (b : Nat)
    (hb : (stepPass oracle i lvl c).2.outcome = some b)
    (hge : ¬ b < (stepPass oracle i lvl c).2.bestBefore) :
    (stepPass oracle i lvl c).2.bestAfter = (stepPass oracle i lvl c).2.bestBefore ∧
      (stepPass oracle i lvl c).2.bestPathAfter = (stepPass oracle i lvl c).2.input ∧
      (stepPass oracle i lvl c).2.improved = false := by
  cases h : oracle i with
  | none => simp [stepPass, h]
  | some x =>
      rw [stepPass_snd_bestBefore] at hge
      by_cases hlt : x < c.bestBytes
      · simp only [stepPass, h, hlt, if_true] at hb
        have hxb : x = b := by simpa using hb
        exact absurd (hxb ▸ hlt) hge
      · simp [stepPass, h, hlt]

theorem runLadder_fst_bestBytes_le (oracle : Nat → Option Nat) (target : Nat) :
    ∀ (ls : List String) (i : Nat) (c : Core),
      (runLadder oracle target ls i c).1.bestBytes ≤ c.bestBytes := by
  intro ls
  induction ls with
  | nil => intro i c; simp [runLadder]
  | cons lvl rest ih =>
      intro i c
      by_cases hstop :
          (stepPass oracle i lvl c).2.outcome.isSome = true ∧
            (stepPass oracle i lvl c).1.bestBytes ≤ target
      · simpa [runLadder, hstop] using stepPass_fst_bestBytes_le oracle i lvl c
      · have h1 := ih (i + 1) (stepPass oracle i lvl c).1
        have h2 := stepPass_fst_bestBytes_le oracle i lvl c
        simpa [runLadder, hstop] using le_trans h1 h2

theorem runLadder_snd_ne_nil (oracle : Nat → Option Nat) (target : Nat)
    (lvl : String) (rest : List String) (i : Nat) (c : Core) :
    (runLadder oracle target (lvl :: rest) i c).2 ≠ [] := by
  by_cases hstop :
      (stepPass oracle i lvl c).2.outcome.isSome = true ∧
        (stepPass oracle i lvl c).1.bestBytes ≤ target
  · simp [runLadder, hstop]
  · simp [runLadder, hstop]

theorem runLadder_head_input (oracle : Nat → Option Nat) (target : Nat)
    (lvl : String) (rest : List String) (i : Nat) (c : Core) :
    (((runLadder oracle target (lvl :: rest) i c).2).map PassLog.input).head? =
      some c.bestPath := by
  by_cases hstop :
      (stepPass oracle i lvl c).2.outcome.isSome = true ∧
        (stepPass oracle i lvl c).1.bestBytes ≤ target
  · simp [runLadder, hstop, stepPass_snd_input]
  · simp [runLadder, hstop, stepPass_snd_input]

theorem runLadder_chain_bestAfter (oracle : Nat → Option Nat) (target : Nat) :
    ∀ (ls : List String) (i : Nat) (c : Core),
      List.Chain' (fun a b => b ≤ a)
        (c.bestBytes :: ((runLadder oracle target ls i c).2).map PassLog.bestAfter) := by
  intro ls
  induction ls with
  | nil => intro i c; simp [runLadder]
  | cons lvl rest ih =>
      intro i c
      have hle : (stepPass oracle i lvl c).2.bestAfter ≤ c.bestBytes := by
        rw [stepPass_snd_bestAfter]
        exact stepPass_fst_bestBytes_le oracle i lvl c
      by_cases hstop :
          (stepPass oracle i lvl c).2.outcome.isSome = true ∧
            (stepPass oracle i lvl c).1.bestBytes ≤ target
      · simp [runLadder, hstop, hle]
      · have hch := ih (i + 1) (stepPass oracle i lvl c).1
        rw [← stepPass_snd_bestAfter] at hch
        simp only [runLadder, hstop, if_false]
        simp only [List.map_cons, List.chain'_cons]
        exact ⟨hle, by simpa using hch⟩

theorem runLadder_chain_input (oracle : Nat → Option Nat) (target : Nat) :
    ∀ (ls : List String) (i : Nat) (c : Core),
      List.Chain' (fun a b => b.input = a.bestPathAfter)
        ((runLadder oracle target ls i c).2) := by
  intro ls
  induction ls with
  | nil => intro i c; simp [runLadder]
  | cons lvl rest ih =>
      intro i c
      by_cases hstop :
          (stepPass oracle i lvl c).2.outcome.isSome = true ∧
            (stepPass oracle i lvl c).1.bestBytes ≤ target
      · simp [runLadder, hstop]
      · simp only [runLadder, hstop, if_false]
        rw [List.chain'_cons']
        refine ⟨?_, ih (i + 1) (stepPass oracle i lvl c).1⟩
        intro y hy
        cases hrest : rest with
        | nil =>
            subst hrest
            simp [runLadder] at hy
        | cons l2 r2 =>
            subst hrest
            have hh := runLadder_head_input oracle target l2 r2 (i + 1)
              (stepPass oracle i lvl c).1
            rw [List.head?_map] at hh
            cases hq : ((runLadder oracle target (l2 :: r2) (i + 1)
                (stepPass oracle i lvl c).1).2).head? with
            | none => simp [hq] at hy
            | some z =>
                rw [hq] at hh hy
                have hzy : z = y := by simpa using hy
                have hz : z.input = (stepPass oracle i lvl c).1.bestPath := by
                  simpa using hh
                rw [← hzy, hz, stepPass_snd_bestPathAfter]

theorem runLadder_mem_rejected (oracle : Nat → Option Nat) (target : Nat) :
    ∀ (ls : List String) (i : Nat) (c : Core) (l : PassLog),
      l ∈ (runLadder oracle target ls i c).2 →
      l.outcome = some l.bestBefore →
      l.bestAfter = l.bestBefore ∧ l.bestPathAfter = l.input ∧
        l.improved = false := by
  intro ls
  induction ls with
  | nil => intro i c l hl; simp [runLadder] at hl
  | cons lvl rest ih =>
      intro i c l hl hout
      by_cases hstop :
          (stepPass oracle i lvl c).2.outcome.isSome = true ∧
            (stepPass oracle i lvl c).1.bestBytes ≤ target
      · simp only [runLadder, hstop, and_self, if_true, List.mem_singleton] at hl
        subst hl
        exact stepPass_rejected oracle i lvl c _ hout (lt_irrefl _)
      · simp only [runLadder, hstop, if_false, List.mem_cons] at hl
        cases hl with
        | inl h =>
            subst h
            exact stepPass_rejected oracle i lvl c _ hout (lt_irrefl _)
        | inr h => exact ih (i + 1) (stepPass oracle i lvl c).1 l h hout

theorem runLadder_fst_live (oracle : Nat → Option Nat) (target : Nat) :
    ∀ (ls : List String) (i : Nat) (c : Core),
      (runLadder oracle target ls i c).1.live =
        c.live ++ (((runLadder oracle target ls i c).2).filter
          (fun l => l.improved)).map (fun l => Artifact.best l.idx) := by
  intro ls
  induction ls with
  | nil => intro i c; simp [runLadder]
  | cons lvl rest ih =>
      intro i c
      by_cases hstop :
          (stepPass oracle i lvl c).2.outcome.isSome = true ∧
            (stepPass oracle i lvl c).1.bestBytes ≤ target
      · simp only [runLadder, hstop, and_self, if_true]
        rw [stepPass_fst_live]
        by_cases himp : (stepPass oracle i lvl c).2.improved = true
        · simp [himp, stepPass_snd_idx]
        · simp [himp]
      · simp only [runLadder, hstop, if_false]
        rw [ih (i + 1) (stepPass oracle i lvl c).1, stepPass_fst_live]
        by_cases himp : (stepPass oracle i lvl c).2.improved = true
        · simp [himp, stepPass_snd_idx, List.append_assoc]
        · simp [himp]

theorem runLadder_stop_of_success (oracle : Nat → Option Nat) (target : Nat) :
    ∀ (ls : List String) (i : Nat) (c : Core) (j : Nat) (l : PassLog),
      ((runLadder oracle target ls i c).2).get? j = some l →
      l.outcome.isSome = true → l.bestAfter ≤ target →
      ((runLadder oracle target ls i c).2).length = j + 1 := by
  intro ls
  induction ls with
  | nil => intro i c j l hl; simp [runLadder] at hl
  | cons lvl rest ih =>
      intro i c j l hl hsome hle
      by_cases hstop :
          (stepPass oracle i lvl c).2.outcome.isSome = true ∧
            (stepPass oracle i lvl c).1.bestBytes ≤ target
      · simp only [runLadder, hstop, and_self, if_true] at hl ⊢
        cases j with
        | zero => simp
        | succ k => simp at hl
      · simp only [runLadder, hstop, if_false] at hl ⊢
        cases j with
        | zero =>
            exfalso
            apply hstop
            simp only [List.get?_cons_zero, Option.some.injEq] at hl
            subst hl
            refine ⟨hsome, ?_⟩
            rw [← stepPass_snd_bestAfter]
            exact hle
        | succ k =>
            simp only [List.get?_cons_succ] at hl
            simp only [List.length_cons]
            rw [ih (i + 1) (stepPass oracle i lvl c).1 k l hl hsome hle]

theorem compressAdaptive_all_fail (oracle : Nat → Option Nat)
    (target orig : Nat) (h : ∀ j, j < 4 → oracle j = none) :
    (compressAdaptive oracle target orig).1 =
      { bestPath := Artifact.original, bestBytes := orig,
        bestLevel := "original", passUsed := 4, live := [] } := by
  have h0 := h 0 (by norm_num)
  have h1 := h 1 (by norm_num)
  have h2 := h 2 (by norm_num)
  have h3 := h 3 (by norm_num)
  simp [compressAdaptive, levels, initCore, runLadder, stepPass, h0, h1, h2, h3]

/-- Claim C1: for every run of the adaptive driver, the returned best size is
at most the original input's size, and the tracked best size is monotonically
non-increasing across the ladder iterations (the engine never returns an
artifact larger than the input). -/
theorem best_size_bounded_and_monotone (oracle : Nat → Option Nat)
    (target orig : Nat) :
    (compressAdaptive oracle target orig).1.bestBytes ≤ orig ∧
      List.Chain' (fun a b => b ≤ a)
        (orig :: ((compressAdaptive oracle target orig).2).map
          PassLog.bestAfter) := by
  constructor
  · simpa [compressAdaptive, initCore] using
      runLadder_fst_bestBytes_le oracle target levels 0 (initCore orig)
  · simpa [compressAdaptive, initCore] using
      runLadder_chain_bestAfter oracle target levels 0 (initCore orig)

/-- Claim C2: every ladder iteration invokes the compressor with the current
best artifact as input: the first pass reads the original input file, and
each later pass reads exactly the best artifact left by the previous
iteration. -/
theorem passes_chain_on_current_best (oracle : Nat → Option Nat)
    (target orig : Nat) :
    (((compressAdaptive oracle target orig).2).map PassLog.input).head? =
        some Artifact.original ∧
      List.Chain' (fun a b => b.input = a.bestPathAfter)
        ((compressAdaptive oracle target orig).2) := by
  constructor
  · simpa [compressAdaptive, levels, initCore] using
      runLadder_head_input oracle target ("baseline")
        ["aggr72", "aggr50", "ultra36"] 0 (initCore orig)
  · simpa [compressAdaptive] using
      runLadder_chain_input oracle target levels 0 (initCore orig)

/-- Claim C3 (the code contradicts it): when a pass strictly improves on the
current best, the previous best temp artifact is never deleted — only
non-improving candidates are unlinked.  With two improving passes (900 then
800 bytes from a 1000-byte input) both renamed best files are still live
after the run while only the second one is the current best; in general every
improving pass's best file stays live until the end of the run. -/
theorem superseded_best_artifact_leaks :
    (compressAdaptive twoImprovingOracle 100 1000).1.live =
        [Artifact.best 0, Artifact.best 1] ∧
      (compressAdaptive twoImprovingOracle 100 1000).1.bestPath =
        Artifact.best 1 ∧
      Artifact.best 0 ≠ Artifact.best 1 ∧
      ∀ (oracle : Nat → Option Nat) (target orig : Nat),
        (compressAdaptive oracle target orig).1.live =
          (((compressAdaptive oracle target orig).2).filter
            (fun l => l.improved)).map (fun l => Artifact.best l.idx) := by
  refine ⟨by decide, by decide, by decide, ?_⟩
  intro oracle target orig
  simpa [compressAdaptive, initCore] using
    runLadder_fst_live oracle target levels 0 (initCore orig)

/-- Claim C4: if every pass's tool invocation fails, the driver still returns
the original input (size unchanged, label "original") with passUsed equal to
the ladder length, and the request handler reports HTTP 200 success (not an
error) to its caller. -/
theorem all_failures_reports_success (oracle : Nat → Option Nat)
    (target orig : Nat) (h : ∀ j, j < 4 → oracle j = none) :
    (compressAdaptive oracle target orig).1.bestBytes = orig ∧
      (compressAdaptive oracle target orig).1.bestLevel = "original" ∧
      (compressAdaptive oracle target orig).1.passUsed = levels.length ∧
      ∀ (secret auth gsQuality : String) (b : Body) (up : UploadResult),
        ¬ secret = "" → extractToken auth = secret →
        truthy (Body.bucket b) = true →
        truthy (Option.orElse (Body.name b) (fun _ => Body.path b)) = true →
        (handleCompress secret auth (some b) (DownloadResult.ok orig) oracle
            up gsQuality target).status = 200 ∧
          (handleCompress secret auth (some b) (DownloadResult.ok orig) oracle
            up gsQuality target).ok = true := by
  have hc := compressAdaptive_all_fail oracle target orig h
  refine ⟨by rw [hc], by rw [hc], by rw [hc]; rfl, ?_⟩
  intro secret auth gsQuality b up hs ht hb hn
  constructor <;> simp [handleCompress, hs, ht, hb, hn, hc]

theorem all_failures_reports_success_witness :
    (compressAdaptive failOracle 900000 4000000).1.bestBytes = 4000000 ∧
      (handleCompress ("s") ("Bearer s") (some sampleBody)
          (DownloadResult.ok 4000000) failOracle UploadResult.ok ("screen")
          900000).status = 200 := by
  have h := all_failures_reports_success failOracle 900000 4000000
    (fun j _ => rfl)
  exact ⟨h.1, (h.2.2.2 ("s") ("Bearer s") ("screen") sampleBody
    UploadResult.ok (by decide) (by decide) (by decide) (by decide)).1⟩

/-- Claim C5 (counterexample): the universal early-stop statement is false on
the code: the early-stop check sits inside the try block, so a failed pass
skips it.  With a 400-byte original against target 500 and a failing first
pass, the best size is already at the target after pass 1, yet the second
ladder level is still invoked. -/
theorem early_stop_skipped_after_failed_pass : ¬ earlyStopAfterEveryPass := by
  intro h
  have h0 := h failThenSmallOracle 500 400 0
    { idx := 0, level := ("baseline"), input := Artifact.original,
      outcome := none, bestBefore := 400, bestAfter := 400,
      bestPathAfter := Artifact.original, improved := false }
    (by decide) (by decide)
  exact absurd h0 (by decide)

/-- Claim C5 (amended): as soon as the best size is at or below
targetMaxBytes after a successful pass, iteration stops and no later ladder
level is invoked (after a failed pass the check is skipped and the next level
runs); in particular, for a ladder producing sizes 1000, 400, 150, 50 with
targetMaxBytes = 500 the engine stops after the second level with
passUsed = 2 and bestBytes = 400, never invoking levels 3 and 4. -/
theorem early_stop_after_successful_pass :
    (∀ (oracle : Nat → Option Nat) (target orig j : Nat) (l : PassLog),
        ((compressAdaptive oracle target orig).2).get? j = some l →
        l.outcome.isSome = true → l.bestAfter ≤ target →
        ((compressAdaptive oracle target orig).2).length = j + 1) ∧
      (compressAdaptive earlyStopOracle 500 1000).1.passUsed = 2 ∧
      (compressAdaptive earlyStopOracle 500 1000).1.bestBytes = 400 ∧
      ((compressAdaptive earlyStopOracle 500 1000).2).length = 2 := by
  refine ⟨?_, by decide, by decide, by decide⟩
  intro oracle target orig j l hl hsome hle
  exact runLadder_stop_of_success oracle target levels 0 (initCore orig) j l
    hl hsome hle

theorem early_stop_after_successful_pass_witness :
    ((compressAdaptive earlyStopOracle 500 1000).2).length = 1 + 1 :=
  early_stop_after_successful_pass.1 earlyStopOracle 500 1000 1
    { idx := 1, level := ("aggr72"), input := Artifact.original,
      outcome := some 400, bestBefore := 1000, bestAfter := 400,
      bestPathAfter := Artifact.best 1, improved := true }
    (by decide) (by decide) (by decide)

/-- Claim C6: after the driver returns, the artifact is uploaded if and only
if bestBytes is strictly less than the original size; otherwise the run is a
no-op (HTTP 200, overwrote = false, no upload attempted) and the stored
original is left untouched. -/
theorem upload_iff_strict_improvement (secret auth gsQuality : String)
    (b : Body) (orig target : Nat) (oracle : Nat → Option Nat)
    (up : UploadResult)
    (hs : ¬ secret = "") (ht : extractToken auth = secret)
    (hb : truthy (Body.bucket b) = true)
    (hn : truthy (Option.orElse (Body.name b) (fun _ => Body.path b)) = true) :
    ((handleCompress secret auth (some b) (DownloadResult.ok orig) oracle up
          gsQuality target).uploadAttempted = true ↔
        (compressAdaptive oracle target orig).1.bestBytes < orig) ∧
      (¬ (compressAdaptive oracle target orig).1.bestBytes < orig →
        (handleCompress secret auth (some b) (DownloadResult.ok orig) oracle
            up gsQuality target).status = 200 ∧
          (handleCompress secret auth (some b) (DownloadResult.ok orig) oracle
            up gsQuality target).overwrote = some false ∧
          (handleCompress secret auth (some b) (DownloadResult.ok orig) oracle
            up gsQuality target).uploadAttempted = false) := by
  by_cases himp : (compressAdaptive oracle target orig).1.bestBytes < orig
  · cases up <;> simp [handleCompress, hs, ht, hb, hn, himp]
  · simp [handleCompress, hs, ht, hb, hn, himp]

theorem upload_iff_strict_improvement_witness :
    (handleCompress ("s") ("Bearer s") (some sampleBody)
        (DownloadResult.ok 1000) failOracle UploadResult.ok ("screen")
        100).status = 200 ∧
      (handleCompress ("s") ("Bearer s") (some sampleBody)
        (DownloadResult.ok 1000) failOracle UploadResult.ok ("screen")
        100).overwrote = some false ∧
      (handleCompress ("s") ("Bearer s") (some sampleBody)
        (DownloadResult.ok 1000) failOracle UploadResult.ok ("screen")
        100).uploadAttempted = false :=
  (upload_iff_strict_improvement ("s") ("Bearer s") ("screen") sampleBody
    1000 100 failOracle UploadResult.ok (by decide) (by decide) (by decide)
    (by decide)).2 (by decide)

/-- Claim C7: a pass whose output size exactly equals the current best is not
treated as an improvement: the best size, the best artifact and the improved
flag are all unchanged, so BestResult keeps the artifact from the earlier,
cheaper profile. -/
theorem equal_size_pass_rejected (oracle : Nat → Option Nat)
    (target orig : Nat) (l : PassLog)
    (hmem : l ∈ (compressAdaptive oracle target orig).2)
    (hout : l.outcome = some l.bestBefore) :
    l.bestAfter = l.bestBefore ∧ l.bestPathAfter = l.input ∧
      l.improved = false :=
  runLadder_mem_rejected oracle target levels 0 (initCore orig) l hmem hout

theorem equal_size_pass_rejected_witness :
    ∃ l, l ∈ (compressAdaptive tieOracle 100 1000).2 ∧
      l.outcome = some l.bestBefore ∧ l.bestAfter = l.bestBefore ∧
      l.bestPathAfter = l.input ∧ l.improved = false := by
  have hm : (⟨1, ("aggr72"), Artifact.best 0, some 600, 600, 600,
      Artifact.best 0, false⟩ : PassLog) ∈
      (compressAdaptive tieOracle 100 1000).2 := by decide
  have h := equal_size_pass_rejected tieOracle 100 1000 _ hm rfl
  exact ⟨_, hm, rfl, h.1, h.2.1, h.2.2⟩

/-- Claim C8: on the successful upload path the serialized ratio field equals
bestBytes divided by originalBytes rounded to 3 decimal places; in
particular, for an original of 4,000,000 bytes with a ladder producing
2,500,000 then 900,000 bytes against target 900,000, the response carries
compressed_bytes 900,000, quality "screen + aggr72", pass_used 2, hit_target
true and ratio 0.225. -/
theorem ratio_rounded_three_decimals :
    (∀ (secret auth gsQuality : String) (b : Body) (orig target : Nat)
        (oracle : Nat → Option Nat),
        ¬ secret = "" → extractToken auth = secret →
        truthy (Body.bucket b) = true →
        truthy (Option.orElse (Body.name b) (fun _ => Body.path b)) = true →
        (compressAdaptive oracle target orig).1.bestBytes < orig →
        (handleCompress secret auth (some b) (DownloadResult.ok orig) oracle
            UploadResult.ok gsQuality target).ratioOut =
          some (ratioTo3 (compressAdaptive oracle target orig).1.bestBytes
            orig)) ∧
      (handleCompress ("s") ("Bearer s") (some sampleBody)
          (DownloadResult.ok 4000000) scenarioOracle UploadResult.ok
          ("screen") 900000).ratioOut = some ((225 : ℚ) / 1000) ∧
      (handleCompress ("s") ("Bearer s") (some sampleBody)
          (DownloadResult.ok 4000000) scenarioOracle UploadResult.ok
          ("screen") 900000).compressedBytes = some 900000 ∧
      (handleCompress ("s") ("Bearer s") (some sampleBody)
          (DownloadResult.ok 4000000) scenarioOracle UploadResult.ok
          ("screen") 900000).quality = some ("screen + aggr72") ∧
      (handleCompress ("s") ("Bearer s") (some sampleBody)
          (DownloadResult.ok 4000000) scenarioOracle UploadResult.ok
          ("screen") 900000).passUsedOut = some 2 ∧
      (handleCompress ("s") ("Bearer s") (some sampleBody)
          (DownloadResult.ok 4000000) scenarioOracle UploadResult.ok
          ("screen") 900000).hitTarget = some true := by
  refine ⟨?_, ?_, by decide, by decide, by decide, by decide⟩
  · intro secret auth gsQuality b orig target oracle hs ht hb hn himp
    simp [handleCompress, hs, ht, hb, hn, himp]
  · have hr : (handleCompress ("s") ("Bearer s") (some sampleBody)
        (DownloadResult.ok 4000000) scenarioOracle UploadResult.ok
        ("screen") 900000).ratioOut = some (ratioTo3 900000 4000000) := rfl
    rw [hr]
    simp only [Option.some.injEq]
    norm_num [ratioTo3]

theorem ratio_rounded_three_decimals_witness :
    (handleCompress ("s") ("Bearer s") (some sampleBody)
        (DownloadResult.ok 4000000) scenarioOracle UploadResult.ok ("screen")
        900000).ratioOut =
      some (ratioTo3
        (compressAdaptive scenarioOracle 900000 4000000).1.bestBytes
        4000000) :=
  ratio_rounded_three_decimals.1 ("s") ("Bearer s") ("screen") sampleBody
    4000000 900000 scenarioOracle (by decide) (by decide) (by decide)
    (by decide) (by decide)

/-- Claim C9: if the configured bearer secret is the empty string, every
/compress request is rejected with HTTP 401 unauthorized, whatever the
Authorization header says — including a request presenting an empty bearer
token, which extracts to the empty string and would otherwise match. -/
theorem empty_secret_always_unauthorized (auth gsQuality : String)
    (body : Option Body) (dl : DownloadResult) (oracle : Nat → Option Nat)
    (up : UploadResult) (target : Nat) :
    (handleCompress ("") auth body dl oracle up gsQuality target).status =
        401 ∧
      (handleCompress ("") auth body dl oracle up gsQuality target).ok =
        false ∧
      (handleCompress ("") auth body dl oracle up gsQuality target).errorMsg =
        some ("unauthorized") ∧
      extractToken ("Bearer ") = "" := by
  refine ⟨?_, ?_, ?_, by decide⟩ <;> simp [handleCompress]

theorem hugeBody_length : hugeBody.length = 3000001 := by
  show (String.mk (List.replicate 3000001 ('x'))).length = 3000001
  rw [String.length]
  exact List.length_replicate 3000001 ('x')

/-- Claim C10 (counterexample): the body reader does not resolve for every
invalid body: a 3,000,001-character unparseable body trips the size guard of
src/server.js lines 163-167, the socket is destroyed, the end event never
fires, the reader's promise never resolves, and no response at all — in
particular no 400 — is ever sent. -/
theorem oversized_invalid_body_never_resolves : ¬ invalidBodyClaim := by
  intro h
  have hr := (h (fun _ => none) hugeBody (Or.inr rfl)).1
  have hlen : hugeBody.length > 3000000 := by
    rw [hugeBody_length]
    norm_num
  have hnone : readJsonBody (fun _ => none) hugeBody = none := by
    simp [readJsonBody, hlen]
  rw [hnone] at hr
  exact Option.noConfusion hr

/-- Claim C10 (amended): for every request body of at most 3,000,000
characters that is empty or fails JSON parsing, the body reader resolves to
null rather than throwing, and an authorized /compress request carrying such
a body receives an HTTP 400 "missing bucket or name" response, never a 500;
an invalid body longer than 3,000,000 characters instead destroys the
socket, so the reader never resolves and no response is sent at all. -/
theorem bounded_invalid_json_body_yields_400 :
    (∀ (parse : String → Option Body) (data : String),
        data.length ≤ 3000000 → data = "" ∨ parse data = none →
        readJsonBody parse data = some none) ∧
      (∀ (secret auth gsQuality data : String) (parse : String → Option Body)
        (dl : DownloadResult) (oracle : Nat → Option Nat)
        (up : UploadResult) (target : Nat),
        ¬ secret = "" → extractToken auth = secret →
        readJsonBody parse data = some none →
        (compressRoute secret auth parse data dl oracle up gsQuality
            target).map HandleResult.status = some 400 ∧
          (compressRoute secret auth parse data dl oracle up gsQuality
            target).map HandleResult.ok = some false ∧
          (compressRoute secret auth parse data dl oracle up gsQuality
            target).map HandleResult.errorMsg =
              some (some ("missing bucket or name"))) ∧
      ∀ (parse : String → Option Body) (data : String),
        data.length > 3000000 →
        readJsonBody parse data = none ∧
          ∀ (secret auth gsQuality : String) (dl : DownloadResult)
            (oracle : Nat → Option Nat) (up : UploadResult) (target : Nat),
            compressRoute secret auth parse data dl oracle up gsQuality
              target = none := by
  refine ⟨?_, ?_, ?_⟩
  · intro parse data hlen hd
    have hgt : ¬ data.length > 3000000 := by omega
    cases hd with
    | inl h => simp [readJsonBody, hgt, h]
    | inr h => simp [readJsonBody, hgt, h]
  · intro secret auth gsQuality data parse dl oracle up target hs ht hnone
    refine ⟨?_, ?_, ?_⟩ <;>
      simp [compressRoute, hnone, handleCompress, hs, ht, truthy]
  · intro parse data hgt
    have hnone : readJsonBody parse data = none := by
      simp [readJsonBody, hgt]
    exact ⟨hnone, fun secret auth gsQuality dl oracle up target => by
      simp [compressRoute, hnone]⟩

theorem bounded_invalid_json_body_yields_400_witness :
    readJsonBody (fun _ => none) ("not json") = some none ∧
      (compressRoute ("s") ("Bearer s") (fun _ => none) ("not json")
          (DownloadResult.ok 1000) failOracle UploadResult.ok ("screen")
          900000).map HandleResult.status = some 400 := by
  have h1 := bounded_invalid_json_body_yields_400.1 (fun _ => none)
    ("not json") (by decide) (Or.inr rfl)
  have h2 := (bounded_invalid_json_body_yields_400.2.1 ("s") ("Bearer s")
    ("screen") ("not json") (fun _ => none) (DownloadResult.ok 1000)
    failOracle UploadResult.ok 900000 (by decide) (by decide) h1).1
  exact ⟨h1, h2⟩
